import Mathlib

/-!
Verification of the capture-and-assemble pipeline of the Speedtest_GUI
backend (src/backend/server.py) against its natural-language specification.

The Python functions are shallowly embedded as pure Lean functions:
* `validate_speedtest_url` embeds the regex check at server.py:97-100;
* `readiness_wait` / `capture_speedtest_screenshot` embed the tiered wait
  structure of `capture_speedtest_screenshot` (server.py:117-135), with the
  page's behaviour (whether each readiness marker appears in time)
  abstracted as a boolean oracle and the issued browser commands recorded
  as an event trace;
* `excelLayout` / `create_excel_with_screenshots` embed the layout loop of
  `create_excel_with_screenshots` (server.py:159-210), with the wall-clock
  timestamp passed as an explicit parameter;
* `classifyUrls`, `captureLoop` and `process_speedtest` embed the
  `/process-speedtest` endpoint (server.py:213-271), with the per-URL
  capture outcome abstracted as an oracle `String → Except String Img`.
-/

namespace Speedtest

/-! ### String helpers: Python `str.strip` -/

/-- Embedding of Python `str.strip()`: remove leading and trailing
whitespace characters. -/
def pyStrip (s : String) : String :=
  (((s.toList.dropWhile Char.isWhitespace).reverse.dropWhile
      Char.isWhitespace).reverse).asString

/-! ### URL Validator (server.py:97-100)

Python: `re.match(r'^https://www\.speedtest\.net/my-result/(a|d|i)/\d+$',
url.strip())`.  The regex is a literal head, one letter from {a, d, i},
a slash, and one or more digits, anchored at both ends (after `strip` the
string cannot end in a newline, so `$` means end-of-string). -/

/-- The literal head of the result-link pattern. -/
def litHead : List Char := "https://www.speedtest.net/my-result/".toList

/-- Consume an exact literal from the front of `s`; return the remainder
on success. -/
def dropLit : List Char → List Char → Option (List Char)
  | [], s => some s
  | _ :: _, [] => none
  | p :: ps, c :: cs => if c = p then dropLit ps cs else none

/-- Match the tail of the pattern: `(a|d|i)/\d+` up to end of input. -/
def matchTail : List Char → Bool
  | c :: d :: ds =>
      (d == '/') && ((c == 'a') || (c == 'd') || (c == 'i')) &&
        (!ds.isEmpty) && ds.all (fun x => x.isDigit)
  | _ => false

/-- The anchored regex match of `^https://www\.speedtest\.net/my-result/(a|d|i)/\d+$`. -/
def reMatchResult (s : List Char) : Bool :=
  match dropLit litHead s with
  | some rest => matchTail rest
  | none => false

/-- Embedding of `validate_speedtest_url` (server.py:97-100). -/
def validate_speedtest_url (url : String) : Bool :=
  reMatchResult (pyStrip url).toList

/-- The specification's wording of URL validity: after trimming, the string
is exactly the literal head, one of the letters a/d/i, a slash, and one or
more digits — no trailing path, query, or fragment. -/
def SpecValidUrl (url : String) : Prop :=
  ∃ c ds, (c = 'a' ∨ c = 'd' ∨ c = 'i') ∧ ds ≠ [] ∧
    (∀ d ∈ ds, d.isDigit = true) ∧
    (pyStrip url).toList = litHead ++ c :: '/' :: ds

theorem dropLit_eq_some (p : List Char) :
    ∀ s r : List Char, dropLit p s = some r ↔ s = p ++ r := by
  induction p with
  | nil => intro s r; simp [dropLit]
  | cons a ps ih =>
    intro s r
    cases s with
    | nil => simp [dropLit]
    | cons c cs =>
      by_cases h : c = a
      · subst h
        simp [dropLit, ih]
      · simp [dropLit, h, Ne.symm h]

theorem matchTail_iff (t : List Char) :
    matchTail t = true ↔
      ∃ c ds, (c = 'a' ∨ c = 'd' ∨ c = 'i') ∧ ds ≠ [] ∧
        (∀ d ∈ ds, d.isDigit = true) ∧ t = c :: '/' :: ds := by
  cases t with
  | nil =>
    simp [matchTail]
  | cons c t' =>
    cases t' with
    | nil => simp [matchTail]
    | cons d ds =>
      constructor
      · intro h
        simp only [matchTail, Bool.and_eq_true, Bool.or_eq_true, beq_iff_eq,
          Bool.not_eq_true', List.all_eq_true] at h
        obtain ⟨⟨⟨hd, hc⟩, hne⟩, hds⟩ := h
        refine ⟨c, ds, or_assoc.mp hc, ?_, hds, by rw [hd]⟩
        intro hnil
        rw [hnil] at hne
        simp at hne
      · rintro ⟨c', ds', hc, hne, hds, heq⟩
        injection heq with h1 h2
        injection h2 with h3 h4
        subst h1; subst h3; subst h4
        simp only [matchTail, Bool.and_eq_true, Bool.or_eq_true, beq_iff_eq,
          Bool.not_eq_true', List.all_eq_true]
        refine ⟨⟨⟨trivial, or_assoc.mpr hc⟩, ?_⟩, hds⟩
        cases ds with
        | nil => exact absurd rfl hne
        | cons x xs => rfl

theorem reMatchResult_iff (s : List Char) :
    reMatchResult s = true ↔
      ∃ c ds, (c = 'a' ∨ c = 'd' ∨ c = 'i') ∧ ds ≠ [] ∧
        (∀ d ∈ ds, d.isDigit = true) ∧ s = litHead ++ c :: '/' :: ds := by
  unfold reMatchResult
  cases h : dropLit litHead s with
  | none =>
    simp only [Bool.false_eq_true, false_iff]
    rintro ⟨c, ds, _, _, _, rfl⟩
    rw [show dropLit litHead (litHead ++ c :: '/' :: ds) = some (c :: '/' :: ds) from
      (dropLit_eq_some litHead _ _).mpr rfl] at h
    exact Option.noConfusion h
  | some rest =>
    rw [dropLit_eq_some] at h
    subst h
    rw [matchTail_iff]
    constructor
    · rintro ⟨c, ds, hc, hne, hds, rfl⟩
      exact ⟨c, ds, hc, hne, hds, rfl⟩
    · rintro ⟨c, ds, hc, hne, hds, heq⟩
      exact ⟨c, ds, hc, hne, hds, List.append_cancel_left heq⟩

/-- C3: `validate_speedtest_url url` is true iff, after trimming surrounding
whitespace, the URL matches exactly
`https://www.speedtest.net/my-result/{a|d|i}/{one or more digits}` —
case-sensitive, letter restricted to a/d/i, no trailing path, query, or
fragment; in particular `validate_speedtest_url "https://google.com"` is
false. -/
theorem C3_validator_spec :
    (∀ url : String, validate_speedtest_url url = true ↔ SpecValidUrl url) ∧
    validate_speedtest_url ("https://google.com") = false := by
  constructor
  · intro url
    unfold validate_speedtest_url SpecValidUrl
    exact reMatchResult_iff (pyStrip url).toList
  · decide

/-! ### Page Capture Engine (server.py:103-139)

The browser interactions issued after navigation are recorded as a trace of
`WaitEvent`s.  Whether each readiness marker appears within its timeout is
abstracted as the boolean oracle `PageBehavior`; the nested
try/except blocks of server.py:122-129 swallow a tier's failure by falling
through to the next tier. -/

/-- A browser command issued while preparing and taking the screenshot. -/
inductive WaitEvent where
  | goto (timeoutMs : Nat)
  | waitSelector (sel : String) (timeoutMs : Nat)
  | waitTimeout (ms : Nat)
  | screenshot
deriving Repr, DecidableEq, BEq

/-- Oracle describing the page: whether each readiness marker appears
within its tier's timeout. -/
structure PageBehavior where
  primaryAppears : Bool
  secondaryAppears : Bool
deriving Repr, DecidableEq

/-- The primary result-content marker (server.py:123). -/
def primaryMarker : String := ".result-container-speed-test"

/-- The secondary, looser content marker (server.py:126). -/
def secondaryMarker : String := ".result-data"

/-- Embedding of the nested try/except readiness wait (server.py:122-129):
try the primary marker (15s); on failure try the secondary marker (10s); on
failure fall back to an unconditional 5s delay.  Returns the trace of waits
performed; every failure is swallowed, so no error escapes this block. -/
def readiness_wait (b : PageBehavior) : List WaitEvent :=
  if b.primaryAppears then
    [WaitEvent.waitSelector primaryMarker 15000]
  else if b.secondaryAppears then
    [WaitEvent.waitSelector primaryMarker 15000,
     WaitEvent.waitSelector secondaryMarker 10000]
  else
    [WaitEvent.waitSelector primaryMarker 15000,
     WaitEvent.waitSelector secondaryMarker 10000,
     WaitEvent.waitTimeout 5000]

/-- Embedding of `capture_speedtest_screenshot` (server.py:103-139) after a
successful navigation: the 60s-bounded goto, the tiered readiness wait, one
fixed 2s delay, then the full-page screenshot.  The result is `Except.ok`
for every page behaviour: a readiness tier's failure never surfaces as a
capture error. -/
def capture_speedtest_screenshot (b : PageBehavior) :
    Except String (List WaitEvent) :=
  Except.ok (WaitEvent.goto 60000 ::
    (readiness_wait b ++ [WaitEvent.waitTimeout 2000, WaitEvent.screenshot]))

/-- C7: after navigation the readiness wait tries the tiers in order —
primary marker at 15s, then (only if absent) secondary marker at 10s, then
(only if both absent) an unconditional 5s delay; every tier failure is
swallowed, so the capture never errors during readiness; and exactly one
fixed 2s delay follows readiness, immediately before the screenshot. -/
theorem C7_tiered_wait (b : PageBehavior) :
    capture_speedtest_screenshot b =
      Except.ok (WaitEvent.goto 60000 ::
        (readiness_wait b ++ [WaitEvent.waitTimeout 2000, WaitEvent.screenshot])) ∧
    readiness_wait b =
      [WaitEvent.waitSelector primaryMarker 15000] ++
        (if b.primaryAppears then [] else
          [WaitEvent.waitSelector secondaryMarker 10000] ++
            (if b.secondaryAppears then ([] : List WaitEvent) else
              [WaitEvent.waitTimeout 5000])) ∧
    List.count (WaitEvent.waitTimeout 2000)
      (readiness_wait b ++ [WaitEvent.waitTimeout 2000, WaitEvent.screenshot]) = 1 := by
  refine ⟨rfl, ?_, ?_⟩ <;>
    obtain ⟨p, s⟩ := b <;> cases p <;> cases s <;> decide

/-! ### Report Assembler (server.py:142-210)

The workbook is modelled as the list of populated cells: each placed entry
anchors the (resized) image and writes the URL label at one `(row, col)`
address.  Image bytes are abstract (`Img`); the wall-clock timestamp used
in the filename is an explicit parameter. -/

/-- Abstract PNG image bytes. -/
abbrev Img := List Nat

/-- One populated cell of the report: the anchor address, the URL written
as a label into the cell (server.py:193), and the image anchored there
(server.py:196-197). -/
structure Placement where
  row : Nat
  col : Nat
  label : String
  image : Img
deriving Repr, DecidableEq

/-- The layout cursor of server.py:159-161. -/
structure LayoutState where
  current_row : Nat
  current_col : Nat
  images_in_row : Nat
deriving Repr, DecidableEq

/-- One iteration of the placement loop (server.py:163-201): if five images
already sit in the band, advance the row by 30 and reset; place the entry
at the cursor; then move two columns right. -/
def placeOne (st : LayoutState) (entry : String × Img) :
    Placement × LayoutState :=
  let st' := if st.images_in_row ≥ 5 then
      LayoutState.mk (st.current_row + 30) 1 0
    else st
  (Placement.mk st'.current_row st'.current_col entry.1 entry.2,
   LayoutState.mk st'.current_row (st'.current_col + 2) (st'.images_in_row + 1))

/-- The placement loop run from a given cursor. -/
def layoutAux : LayoutState → List (String × Img) → List Placement
  | _, [] => []
  | st, e :: rest =>
    let pr := placeOne st e
    pr.1 :: layoutAux pr.2 rest

/-- All cell placements produced for the given capture successes, cursor
initialised to `(1, 1, 0)` (server.py:159-161). -/
def excelLayout (data : List (String × Img)) : List Placement :=
  layoutAux (LayoutState.mk 1 1 0) data

/-- Wall-clock time at second resolution, as used by
`datetime.now().strftime('%Y%m%d_%H%M%S')` (server.py:207). -/
structure Timestamp where
  year : Nat
  month : Nat
  day : Nat
  hour : Nat
  minute : Nat
  second : Nat
deriving Repr, DecidableEq

def pad2 (n : Nat) : String :=
  if n < 10 then "0" ++ Nat.repr n else Nat.repr n

def pad4 (n : Nat) : String :=
  if n < 10 then "000" ++ Nat.repr n
  else if n < 100 then "00" ++ Nat.repr n
  else if n < 1000 then "0" ++ Nat.repr n
  else Nat.repr n

/-- `strftime('%Y%m%d_%H%M%S')`. -/
def strfTimestamp (t : Timestamp) : String :=
  pad4 t.year ++ pad2 t.month ++ pad2 t.day ++ "_" ++
    pad2 t.hour ++ pad2 t.minute ++ pad2 t.second

/-- Embedding of `create_excel_with_screenshots` (server.py:142-210): the
produced workbook content (as its populated cells) together with the path
the file is saved under. -/
def create_excel_with_screenshots (data : List (String × Img))
    (ts : Timestamp) : List Placement × String :=
  (excelLayout data,
   "/tmp/speedtest_results/speedtest_results_" ++ strfTimestamp ts ++ ".xlsx")

/-- Closed form of the layout: entry number `k` (0-indexed across the whole
run) lands at row `r + 30 * (k / 5)`, column `1 + 2 * (k % 5)`. -/
def auxClosed (r k : Nat) : List (String × Img) → List Placement
  | [] => []
  | e :: rest =>
    Placement.mk (r + 30 * (k / 5)) (1 + 2 * (k % 5)) e.1 e.2 ::
      auxClosed r (k + 1) rest

theorem auxClosed_shift (l : List (String × Img)) :
    ∀ r k : Nat, auxClosed r (k + 5) l = auxClosed (r + 30) k l := by
  induction l with
  | nil => intro r k; rfl
  | cons e rest ih =>
    intro r k
    have hdiv : (k + 5) / 5 = k / 5 + 1 := Nat.add_div_right k (by norm_num)
    have hmod : (k + 5) % 5 = k % 5 := Nat.add_mod_right k 5
    simp only [auxClosed, hdiv, hmod]
    congr 1
    · congr 1
      omega
    · have h1 : k + 5 + 1 = k + 1 + 5 := by omega
      rw [h1, ih r (k + 1)]

theorem layoutAux_eq_auxClosed (l : List (String × Img)) :
    ∀ r k : Nat, k ≤ 5 →
      layoutAux (LayoutState.mk r (1 + 2 * k) k) l = auxClosed r k l := by
  induction l with
  | nil => intro r k _; rfl
  | cons e rest ih =>
    intro r k hk
    by_cases h5 : k ≥ 5
    · have hk5 : k = 5 := le_antisymm hk h5
      subst hk5
      simp only [layoutAux, placeOne, if_pos (by norm_num : (5 : Nat) ≥ 5),
        auxClosed]
      congr 1
      have hih := ih (r + 30) 1 (by norm_num)
      norm_num at hih
      have h6 : auxClosed r 6 rest = auxClosed (r + 30) 1 rest := by
        have hs := auxClosed_shift rest r 1
        norm_num at hs
        exact hs
      rw [h6]
      exact hih
    · push_neg at h5
      have hd0 : k / 5 = 0 := Nat.div_eq_of_lt h5
      have hm0 : k % 5 = k := Nat.mod_eq_of_lt h5
      simp only [layoutAux, placeOne, if_neg (by omega : ¬ k ≥ 5), auxClosed,
        hd0, hm0, Nat.mul_zero, Nat.add_zero]
      congr 1
      have hih := ih r (k + 1) (by omega)
      have h2k : 1 + 2 * k + 2 = 1 + 2 * (k + 1) := by ring
      rw [h2k, hih]

theorem excelLayout_eq (data : List (String × Img)) :
    excelLayout data = auxClosed 1 0 data := by
  have h := layoutAux_eq_auxClosed data 1 0 (by norm_num)
  simpa [excelLayout] using h

theorem auxClosed_get? (l : List (String × Img)) :
    ∀ r k i : Nat,
      (auxClosed r k l).get? i = (l.get? i).map (fun e =>
        Placement.mk (r + 30 * ((k + i) / 5)) (1 + 2 * ((k + i) % 5))
          e.1 e.2) := by
  induction l with
  | nil => intro r k i; simp [auxClosed]
  | cons e rest ih =>
    intro r k i
    cases i with
    | zero => simp [auxClosed]
    | succ i' =>
      simp only [auxClosed, List.get?]
      rw [ih r (k + 1) i']
      have : k + 1 + i' = k + (i' + 1) := by omega
      rw [this]

theorem auxClosed_map_label (l : List (String × Img)) :
    ∀ r k : Nat, (auxClosed r k l).map Placement.label = l.map Prod.fst := by
  induction l with
  | nil => intro r k; rfl
  | cons e rest ih =>
    intro r k
    simp only [auxClosed, List.map]
    rw [ih r (k + 1)]

theorem auxClosed_length (l : List (String × Img)) :
    ∀ r k : Nat, (auxClosed r k l).length = l.length := by
  induction l with
  | nil => intro r k; rfl
  | cons e rest ih =>
    intro r k
    simp only [auxClosed, List.length_cons]
    rw [ih r (k + 1)]

/-- C1: for a list of successes, image `j` (1-indexed) is anchored at
absolute row `1 + 30 * (⌈j/5⌉ - 1)` (banding by fives, each band advance
adding 30 row-units and resetting the column) and column
`1 + 2 * ((j-1) mod 5)`, and the source URL is written as the label of that
same cell. -/
theorem C1_layout_law (data : List (String × Img)) (j : Nat)
    (h1 : 1 ≤ j) (_h2 : j ≤ data.length) :
    (excelLayout data).get? (j - 1) = (data.get? (j - 1)).map (fun e =>
      Placement.mk (1 + 30 * ((j + 4) / 5 - 1)) (1 + 2 * ((j - 1) % 5))
        e.1 e.2) := by
  rw [excelLayout_eq, auxClosed_get? data 1 0 (j - 1)]
  have hdiv : (0 + (j - 1)) / 5 = (j + 4) / 5 - 1 := by omega
  have hmod : (0 + (j - 1)) % 5 = (j - 1) % 5 := by omega
  rw [hdiv, hmod]

/-- Closed witness for C1 at a six-element list: the sixth image starts the
second row-band at row 31, column 1, labelled with its own URL. -/
theorem C1_layout_law_witness :
    (excelLayout [("u1", [1]), ("u2", [2]), ("u3", [3]), ("u4", [4]),
        ("u5", [5]), ("u6", [6])]).get? 5 =
      some (Placement.mk 31 1 ("u6") [6]) := by
  have h := C1_layout_law
    [("u1", [1]), ("u2", [2]), ("u3", [3]), ("u4", [4]),
     ("u5", [5]), ("u6", [6])] 6 (by norm_num) (by simp)
  simpa using h

/-- C9: the layout produced by the assembler is a deterministic function of
the successes list alone — two runs at different wall-clock times yield
identical cell/label/image assignments — and the output path differs only
in its embedded second-granularity timestamp. -/
theorem C9_layout_deterministic (data : List (String × Img))
    (ts1 ts2 : Timestamp) :
    (create_excel_with_screenshots data ts1).1 =
      (create_excel_with_screenshots data ts2).1 ∧
    (create_excel_with_screenshots data ts1).2 =
      "/tmp/speedtest_results/speedtest_results_" ++ strfTimestamp ts1 ++ ".xlsx" ∧
    (create_excel_with_screenshots data ts2).2 =
      "/tmp/speedtest_results/speedtest_results_" ++ strfTimestamp ts2 ++ ".xlsx" :=
  ⟨rfl, rfl, rfl⟩

/-! ### Batch Orchestrator: the `/process-speedtest` endpoint
(server.py:213-271)

The per-URL capture outcome is abstracted as an oracle
`capture : String → Except String Img` (success bytes, or the exception's
message).  An HTTP error response is `HTTPError`; the success path returns
the JSON body together with the workbook content written to disk. -/

/-- An `HTTPException(status_code, detail)`. -/
structure HTTPError where
  status : Nat
  detail : String
deriving Repr, DecidableEq

/-- The JSON body returned on success (server.py:260-265). -/
structure SpeedTestResponse where
  success : Bool
  message : String
  file_path : String
  errors : List String
deriving Repr, DecidableEq

/-- The validation loop (server.py:220-230): strip each entry, skip blanks,
and partition the rest by `validate_speedtest_url` into
`(valid_urls, invalid_urls)`, preserving input order. -/
def classifyUrls : List String → List String × List String
  | [] => ([], [])
  | url :: rest =>
    let u := pyStrip url
    let vi := classifyUrls rest
    if u.isEmpty then vi
    else if validate_speedtest_url u then (u :: vi.1, vi.2)
    else (vi.1, u :: vi.2)

/-- The capture-failure message of server.py:249. -/
def mkCaptureFailMsg (url reason : String) : String :=
  "Failed to capture " ++ url ++ ": " ++ reason

/-- The invalid-URL notice of server.py:264. -/
def mkInvalidMsg (url : String) : String :=
  "Invalid URL: " ++ url

/-- The capture loop (server.py:239-249): attempt each valid URL in order;
collect `(url, bytes)` pairs on success and formatted failure messages on
exception, never aborting the loop. -/
def captureLoop (capture : String → Except String Img) :
    List String → List (String × Img) × List String
  | [] => ([], [])
  | url :: rest =>
    match capture url with
    | Except.ok b =>
      let se := captureLoop capture rest
      ((url, b) :: se.1, se.2)
    | Except.error e =>
      let se := captureLoop capture rest
      (se.1, mkCaptureFailMsg url e :: se.2)

/-- Embedding of the `process_speedtest` endpoint (server.py:213-271).
Returns the HTTP error raised, or the JSON body together with the workbook
content written at its `file_path`. -/
def process_speedtest (capture : String → Except String Img)
    (ts : Timestamp) (urls : List String) :
    Except HTTPError (SpeedTestResponse × List Placement) :=
  if urls.isEmpty then
    Except.error (HTTPError.mk 400 ("No URLs provided"))
  else
    let vi := classifyUrls urls
    if vi.1.isEmpty then
      Except.error (HTTPError.mk 400 ("No valid speedtest.net URLs found"))
    else
      let se := captureLoop capture vi.1
      if se.1.isEmpty then
        Except.error (HTTPError.mk 500 ("Failed to capture any screenshots"))
      else
        let fp := create_excel_with_screenshots se.1 ts
        Except.ok
          (SpeedTestResponse.mk true
            ("Successfully processed " ++ Nat.repr se.1.length ++ " URLs")
            fp.2
            (se.2 ++ vi.2.map mkInvalidMsg),
           fp.1)

/-- Whether an `Except` is a success. -/
def isOkB : Except String Img → Bool
  | Except.ok _ => true
  | Except.error _ => false

/-- The `(url, bytes)` pair a URL contributes on capture success. -/
def okPair (capture : String → Except String Img) (u : String) :
    Option (String × Img) :=
  match capture u with
  | Except.ok b => some (u, b)
  | Except.error _ => none

/-- The failure message a URL contributes on capture failure. -/
def errMsgOf (capture : String → Except String Img) (u : String) :
    Option String :=
  match capture u with
  | Except.ok _ => none
  | Except.error e => some (mkCaptureFailMsg u e)

/-- The number of URLs in `l` whose capture succeeds. -/
def numSuccesses (capture : String → Except String Img)
    (l : List String) : Nat :=
  (l.filter (fun u => isOkB (capture u))).length

theorem captureLoop_eq (capture : String → Except String Img)
    (l : List String) :
    captureLoop capture l =
      (l.filterMap (okPair capture), l.filterMap (errMsgOf capture)) := by
  induction l with
  | nil => rfl
  | cons u rest ih =>
    cases h : capture u with
    | ok b =>
      simp only [captureLoop, h, ih, List.filterMap_cons, okPair, errMsgOf]
    | error e =>
      simp only [captureLoop, h, ih, List.filterMap_cons, okPair, errMsgOf]

theorem okPair_length (capture : String → Except String Img)
    (l : List String) :
    (l.filterMap (okPair capture)).length = numSuccesses capture l := by
  unfold numSuccesses
  induction l with
  | nil => rfl
  | cons u rest ih =>
    cases h : capture u with
    | ok b => simp [List.filterMap_cons, List.filter_cons, okPair, isOkB, h, ih]
    | error e =>
      simp [List.filterMap_cons, List.filter_cons, okPair, isOkB, h, ih]

theorem okPair_map_fst (capture : String → Except String Img)
    (l : List String) :
    (l.filterMap (okPair capture)).map Prod.fst =
      l.filter (fun u => isOkB (capture u)) := by
  induction l with
  | nil => rfl
  | cons u rest ih =>
    cases h : capture u with
    | ok b => simp [List.filterMap_cons, List.filter_cons, okPair, isOkB, h, ih]
    | error e =>
      simp [List.filterMap_cons, List.filter_cons, okPair, isOkB, h, ih]

theorem okPair_errMsg_length (capture : String → Except String Img)
    (l : List String) :
    (l.filterMap (okPair capture)).length +
      (l.filterMap (errMsgOf capture)).length = l.length := by
  induction l with
  | nil => rfl
  | cons u rest ih =>
    cases h : capture u with
    | ok b =>
      simp only [List.filterMap_cons, okPair, errMsgOf, h, List.length_cons]
      omega
    | error e =>
      simp only [List.filterMap_cons, okPair, errMsgOf, h, List.length_cons]
      omega

theorem excelLayout_length (data : List (String × Img)) :
    (excelLayout data).length = data.length := by
  rw [excelLayout_eq]
  exact auxClosed_length data 1 0

theorem excelLayout_map_label (data : List (String × Img)) :
    (excelLayout data).map Placement.label = data.map Prod.fst := by
  rw [excelLayout_eq]
  exact auxClosed_map_label data 1 0

theorem classifyUrls_eq (urls : List String) :
    classifyUrls urls =
      ((urls.map pyStrip).filter
         (fun u => !u.isEmpty && validate_speedtest_url u),
       (urls.map pyStrip).filter
         (fun u => !u.isEmpty && !validate_speedtest_url u)) := by
  induction urls with
  | nil => rfl
  | cons url rest ih =>
    simp only [classifyUrls, List.map_cons, List.filter_cons, ih]
    by_cases he : (pyStrip url).isEmpty = true
    · simp [he]
    · by_cases hv : validate_speedtest_url (pyStrip url) = true
      · simp [he, hv]
      · simp [he, hv]

theorem filter_split_length (l : List String) (p q : String → Bool) :
    (l.filter (fun u => p u && q u)).length +
      (l.filter (fun u => p u && !q u)).length =
      (l.filter p).length := by
  induction l with
  | nil => rfl
  | cons a t ih =>
    by_cases hp : p a = true <;> by_cases hq : q a = true <;>
      simp [List.filter_cons, hp, hq] <;> omega

/-- C8: validation partitions the input into valid and invalid sequences,
each the order-preserving subsequence of the trimmed input selected by the
(complementary) shape checks; entries blank after trimming appear in
neither partition, and every non-blank trimmed entry lands in exactly one
of the two. -/
theorem C8_classify_partition (urls : List String) :
    (classifyUrls urls).1 =
      (urls.map pyStrip).filter
        (fun u => !u.isEmpty && validate_speedtest_url u) ∧
    (classifyUrls urls).2 =
      (urls.map pyStrip).filter
        (fun u => !u.isEmpty && !validate_speedtest_url u) ∧
    List.Sublist (classifyUrls urls).1 (urls.map pyStrip) ∧
    List.Sublist (classifyUrls urls).2 (urls.map pyStrip) ∧
    (classifyUrls urls).1.length + (classifyUrls urls).2.length =
      ((urls.map pyStrip).filter (fun u => !u.isEmpty)).length := by
  rw [classifyUrls_eq urls]
  refine ⟨rfl, rfl, List.filter_sublist _, List.filter_sublist _, ?_⟩
  exact filter_split_length (urls.map pyStrip) (fun u => !u.isEmpty)
    validate_speedtest_url

/-- C2: in a batch where `valid.length` URLs are valid and
`numSuccesses capture valid` of them succeed, with at least one success and
at least one failure, the endpoint returns success, the errors field holds
exactly `valid.length - numSuccesses` capture-failure messages (followed by
the invalid-URL notices), and the report holds exactly the successful
images in input order — a single capture failure never aborts the batch. -/
theorem C2_partial_success (capture : String → Except String Img)
    (ts : Timestamp) (urls valid invalid : List String)
    (hc : classifyUrls urls = (valid, invalid))
    (hne : urls ≠ [])
    (h0 : 0 < numSuccesses capture valid)
    (hM : numSuccesses capture valid < valid.length) :
    ∃ resp report,
      process_speedtest capture ts urls = Except.ok (resp, report) ∧
      resp.success = true ∧
      resp.errors =
        valid.filterMap (errMsgOf capture) ++ invalid.map mkInvalidMsg ∧
      (valid.filterMap (errMsgOf capture)).length =
        valid.length - numSuccesses capture valid ∧
      report.length = numSuccesses capture valid ∧
      report.map Placement.label =
        valid.filter (fun u => isOkB (capture u)) := by
  have hne' : urls.isEmpty = false := by
    cases urls with
    | nil => exact absurd rfl hne
    | cons a t => rfl
  have hvne' : valid.isEmpty = false := by
    cases valid with
    | nil => simp [numSuccesses] at h0
    | cons a t => rfl
  have hlen1 := okPair_length capture valid
  have hsdne : (valid.filterMap (okPair capture)).isEmpty = false := by
    cases hfm : valid.filterMap (okPair capture) with
    | nil =>
      rw [hfm] at hlen1
      simp at hlen1
      omega
    | cons a t => rfl
  have hstep : process_speedtest capture ts urls =
      Except.ok
        (SpeedTestResponse.mk true
          ("Successfully processed " ++
            Nat.repr (valid.filterMap (okPair capture)).length ++ " URLs")
          (create_excel_with_screenshots
            (valid.filterMap (okPair capture)) ts).2
          (valid.filterMap (errMsgOf capture) ++ invalid.map mkInvalidMsg),
         (create_excel_with_screenshots
           (valid.filterMap (okPair capture)) ts).1) := by
    simp [process_speedtest, hne', hc, captureLoop_eq, hvne', hsdne]
  have hlen2 := okPair_errMsg_length capture valid
  refine ⟨_, _, hstep, rfl, rfl, by omega, ?_, ?_⟩
  · show (excelLayout (valid.filterMap (okPair capture))).length = _
    rw [excelLayout_length, hlen1]
  · show (excelLayout (valid.filterMap (okPair capture))).map
      Placement.label = _
    rw [excelLayout_map_label, okPair_map_fst]

/-- C4: whenever the batch returns a result, its errors field is exactly
the capture-failure messages ("Failed to capture {url}: {reason}") in
capture-attempt order followed by one "Invalid URL: {url}" notice per
invalid input, in input order. -/
theorem C4_errors_order (capture : String → Except String Img)
    (ts : Timestamp) (urls valid invalid : List String)
    (resp : SpeedTestResponse) (report : List Placement)
    (hc : classifyUrls urls = (valid, invalid))
    (hok : process_speedtest capture ts urls = Except.ok (resp, report)) :
    resp.errors =
      valid.filterMap (errMsgOf capture) ++ invalid.map mkInvalidMsg := by
  simp only [process_speedtest, hc, captureLoop_eq] at hok
  split at hok
  · exact absurd hok (by simp)
  · split at hok
    · exact absurd hok (by simp)
    · split at hok
      · exact absurd hok (by simp)
      · rw [Except.ok.injEq, Prod.mk.injEq] at hok
        obtain ⟨hresp, _⟩ := hok
        rw [← hresp]

/-- C5: an empty input sequence, or one in which no entry passes the shape
check after trimming, yields the 400 validation error (detail "No URLs
provided" when empty, "No valid speedtest.net URLs found" otherwise), and
this holds for every capture oracle — no capture is attempted and no
partial work influences the outcome. -/
theorem C5_validation_error (ts : Timestamp) (urls : List String)
    (h : urls = [] ∨ (classifyUrls urls).1 = []) :
    ∀ capture, process_speedtest capture ts urls =
      Except.error (HTTPError.mk 400
        (if urls.isEmpty then ("No URLs provided")
         else ("No valid speedtest.net URLs found"))) := by
  intro capture
  rcases h with h | h
  · subst h
    rfl
  · cases urls with
    | nil => rfl
    | cons a t =>
      simp [process_speedtest, h]

/-- C6: when at least one URL is valid but every capture attempt fails, the
endpoint raises the 500 error "Failed to capture any screenshots" — the
error value carries no report. -/
theorem C6_capture_exhausted (capture : String → Except String Img)
    (ts : Timestamp) (urls valid invalid : List String)
    (hc : classifyUrls urls = (valid, invalid))
    (hne : urls ≠ [])
    (hv : valid ≠ [])
    (hall : ∀ u ∈ valid, ∃ e, capture u = Except.error e) :
    process_speedtest capture ts urls =
      Except.error (HTTPError.mk 500 ("Failed to capture any screenshots")) := by
  have hne' : urls.isEmpty = false := by
    cases urls with
    | nil => exact absurd rfl hne
    | cons a t => rfl
  have hv' : valid.isEmpty = false := by
    cases valid with
    | nil => exact absurd rfl hv
    | cons a t => rfl
  have hsd : valid.filterMap (okPair capture) = [] := by
    rw [List.filterMap_eq_nil_iff]
    intro u hu
    obtain ⟨e, he⟩ := hall u hu
    simp [okPair, he]
  simp [process_speedtest, hne', hc, hv', captureLoop_eq, hsd]

/-- C10: when every valid URL fails capture, the 500 response carries only
the fixed detail "Failed to capture any screenshots": the result is the
same whatever the individual failure reasons and whatever invalid-URL
notices were gathered, so those messages are discarded and never reach the
caller. -/
theorem C10_exhausted_discards (capture : String → Except String Img)
    (ts : Timestamp) (urls valid invalid : List String)
    (hc : classifyUrls urls = (valid, invalid))
    (hne : urls ≠ [])
    (hv : valid ≠ [])
    (hall : ∀ u ∈ valid, isOkB (capture u) = false) :
    process_speedtest capture ts urls =
      Except.error (HTTPError.mk 500 ("Failed to capture any screenshots")) ∧
    ∀ capture2 ts2 urls2 invalid2,
      classifyUrls urls2 = (valid, invalid2) → urls2 ≠ [] →
      (∀ u ∈ valid, isOkB (capture2 u) = false) →
      process_speedtest capture2 ts2 urls2 =
        process_speedtest capture ts urls := by
  have hv' : valid.isEmpty = false := by
    cases valid with
    | nil => exact absurd rfl hv
    | cons a t => rfl
  have key : ∀ (cap : String → Except String Img) (t : Timestamp)
      (us inv : List String), classifyUrls us = (valid, inv) → us ≠ [] →
      (∀ u ∈ valid, isOkB (cap u) = false) →
      process_speedtest cap t us =
        Except.error (HTTPError.mk 500
          ("Failed to capture any screenshots")) := by
    intro cap t us inv hcu hneu hallu
    have hneu' : us.isEmpty = false := by
      cases us with
      | nil => exact absurd rfl hneu
      | cons a t' => rfl
    have hsd : valid.filterMap (okPair cap) = [] := by
      rw [List.filterMap_eq_nil_iff]
      intro u hu
      have h := hallu u hu
      cases hcap : cap u with
      | ok b =>
        rw [hcap] at h
        exact absurd h (by simp [isOkB])
      | error e => simp [okPair, hcap]
    simp [process_speedtest, hneu', hcu, hv', captureLoop_eq, hsd]
  refine ⟨key capture ts urls invalid hc hne hall, ?_⟩
  intro capture2 ts2 urls2 invalid2 h1 h2 h3
  rw [key capture2 ts2 urls2 invalid2 h1 h2 h3,
    key capture ts urls invalid hc hne hall]

/-! ### Concrete witnesses -/

/-- A timestamp used to instantiate the assembler in witnesses. -/
def tsW : Timestamp := Timestamp.mk 2025 1 2 3 4 5

/-- A two-URL batch, both valid. -/
def urlsW : List String :=
  [("https://www.speedtest.net/my-result/a/1"),
   ("https://www.speedtest.net/my-result/d/22")]

/-- A capture oracle succeeding on the first URL of `urlsW` only. -/
def captureW : String → Except String Img :=
  fun u =>
    if u = ("https://www.speedtest.net/my-result/a/1") then Except.ok [7]
    else Except.error ("net down")

/-- A capture oracle that always fails with reason "boom". -/
def captureFailW : String → Except String Img :=
  fun _ => Except.error ("boom")

/-- A capture oracle that always fails with reason "down". -/
def captureFailW2 : String → Except String Img :=
  fun _ => Except.error ("down")

/-- A batch with one valid and one invalid URL. -/
def urlsW2 : List String :=
  [("https://www.speedtest.net/my-result/i/9"), ("not-a-url")]

/-- The JSON body the endpoint produces on the `captureW`/`urlsW` batch. -/
def respW : SpeedTestResponse :=
  SpeedTestResponse.mk true ("Successfully processed 1 URLs")
    ("/tmp/speedtest_results/speedtest_results_20250102_030405.xlsx")
    [("Failed to capture https://www.speedtest.net/my-result/d/22: net down")]

/-- The workbook content the endpoint produces on that batch. -/
def reportW : List Placement :=
  [Placement.mk 1 1 ("https://www.speedtest.net/my-result/a/1") [7]]

/-- Closed witness for C2: a two-valid-URL batch with one success and one
failure returns a successful result with one failure message and a
one-image report. -/
theorem C2_partial_success_witness :
    ∃ resp report,
      process_speedtest captureW tsW urlsW = Except.ok (resp, report) ∧
      resp.success = true ∧
      resp.errors =
        urlsW.filterMap (errMsgOf captureW) ++
          ([] : List String).map mkInvalidMsg ∧
      (urlsW.filterMap (errMsgOf captureW)).length =
        urlsW.length - numSuccesses captureW urlsW ∧
      report.length = numSuccesses captureW urlsW ∧
      report.map Placement.label =
        urlsW.filter (fun u => isOkB (captureW u)) :=
  C2_partial_success captureW tsW urlsW urlsW [] (by decide) (by decide)
    (by decide) (by decide)

/-- Closed witness for C4: the errors field on the `captureW`/`urlsW` batch
is the single capture-failure message with no invalid notices. -/
theorem C4_errors_order_witness :
    respW.errors =
      urlsW.filterMap (errMsgOf captureW) ++
        ([] : List String).map mkInvalidMsg :=
  C4_errors_order captureW tsW urlsW urlsW [] respW reportW (by decide)
    (by rfl)

/-- Closed witness for C5: the empty batch and the all-invalid batch raise
the two 400 validation errors, without consulting the capture oracle. -/
theorem C5_validation_error_witness :
    process_speedtest captureFailW tsW [] =
      Except.error (HTTPError.mk 400 ("No URLs provided")) ∧
    process_speedtest captureFailW tsW [("https://google.com")] =
      Except.error (HTTPError.mk 400 ("No valid speedtest.net URLs found")) := by
  constructor
  · have h := C5_validation_error tsW [] (Or.inl rfl) captureFailW
    simpa using h
  · have h := C5_validation_error tsW [("https://google.com")]
      (Or.inr (by decide)) captureFailW
    simpa using h

/-- Closed witness for C6: a batch of two valid URLs that both fail capture
raises the 500 exhaustion error. -/
theorem C6_capture_exhausted_witness :
    process_speedtest captureFailW tsW urlsW =
      Except.error (HTTPError.mk 500 ("Failed to capture any screenshots")) :=
  C6_capture_exhausted captureFailW tsW urlsW urlsW [] (by decide) (by decide)
    (by decide) (by intro u hu; exact ⟨("boom"), rfl⟩)

/-- Closed witness for C10: the exhausted batch with an invalid URL and
reason "down" yields exactly the fixed 500 detail, and the same response as
a batch with no invalid URL and a different failure reason — the gathered
messages are discarded. -/
theorem C10_exhausted_discards_witness :
    process_speedtest captureFailW2 tsW urlsW2 =
      Except.error (HTTPError.mk 500 ("Failed to capture any screenshots")) ∧
    process_speedtest captureFailW tsW
        [("https://www.speedtest.net/my-result/i/9")] =
      process_speedtest captureFailW2 tsW urlsW2 := by
  have h := C10_exhausted_discards captureFailW2 tsW urlsW2
    [("https://www.speedtest.net/my-result/i/9")] [("not-a-url")]
    (by decide) (by decide) (by decide) (by intro u hu; rfl)
  exact ⟨h.1, h.2 captureFailW tsW
    [("https://www.speedtest.net/my-result/i/9")] [] (by decide) (by decide)
    (by intro u hu; rfl)⟩

end Speedtest
